import Mathlib

/-!
Shallow embedding of the scripted-object runtime of tildemush
(src/server/tmserver/scripting.py): the `ScriptEngine` handler table and its
built-in handlers, the `ScriptedObjectMixin` data primitives
(`set_data`, `get_data`, `_ensure_data`, `say`, `tell_sender`), the authoring
templates `SCRIPT_TEMPLATES`, and the hot-reload logic of the `engine`
property together with `init_scripting`.

Python dicts are embedded as association lists in insertion order: assignment
replaces the value of an existing key in place and appends a fresh key at the
end, exactly like CPython dicts.  The durable store (peewee, out of scope per
the spec) is embedded as a row map keyed by object id: `Model.save()` upserts
the in-memory instance into its row, `get_by_id` reads the row back.
Calls into the game world (`dispatch_action`, `user_hears`,
`send_client_update`) are recorded as an ordered effect trace.
-/

set_option autoImplicit false

set_option maxRecDepth 10000

namespace Tildemush

/-- Python values as used by the scripts and handlers in this repository:
`None`, ints, strings and booleans. -/
inductive Val where
  | vnone
  | vint (n : Int)
  | vstr (s : String)
  | vbool (b : Bool)
deriving Repr, DecidableEq

/-- Python str() of a value, as used by '...'.format(args). -/
def formatVal : Val → String
  | .vnone => "None"
  | .vint n => toString n
  | .vstr s => s
  | .vbool b => if b then "True" else "False"

/-- Python dict lookup `d.get(q)` on an insertion-ordered association list. -/
def alookup {κ α : Type} [DecidableEq κ] : List (κ × α) → κ → Option α
  | [], _ => none
  | (k, v) :: rest, q => if q = k then some v else alookup rest q

/-- Python dict assignment `d[k] = v`: replaces the value of an existing key
in place, appends a fresh key at the end. -/
def aset {κ α : Type} [DecidableEq κ] : List (κ × α) → κ → α → List (κ × α)
  | [], k, v => [(k, v)]
  | (k', v') :: rest, k, v =>
      if k = k' then (k, v) :: rest else (k', v') :: aset rest k v

theorem alookup_aset {κ α : Type} [DecidableEq κ] (d : List (κ × α)) (k0 : κ) (v0 : α) (q : κ) :
    alookup (aset d k0 v0) q = if q = k0 then some v0 else alookup d q := by
  induction d with
  | nil => simp [aset, alookup]
  | cons hd tl ih =>
    obtain ⟨k', v'⟩ := hd
    by_cases hk : k0 = k'
    · subst hk
      by_cases hq : q = k0 <;> simp [aset, alookup, hq]
    · by_cases hq : q = k'
      · subst hq
        simp [aset, alookup, hk, Ne.symm hk]
      · simp [aset, alookup, hk, hq, ih]

theorem aset_aset_same {κ α : Type} [DecidableEq κ] (d : List (κ × α)) (k : κ) (v : α) :
    aset (aset d k v) k v = aset d k v := by
  induction d with
  | nil => simp [aset]
  | cons hd tl ih =>
    obtain ⟨k', v'⟩ := hd
    by_cases hk : k = k' <;> simp [aset, hk, ih]

/-- The persisted attributes of a game object that the scripting runtime
touches: primary key `id`, display `name`, the bound user account
(`user_account`, None when the object is not a player's avatar) and the
free-form `data` map. -/
structure GObj where
  id : Nat
  name : String
  user_account : Option String
  data : List (String × Val)
deriving Repr, DecidableEq

/-- A call the runtime makes into the game world, recorded as an effect:
`send_client_update`, `user_hears` and `dispatch_action`. -/
inductive Effect where
  | clientUpdate (account : String)
  | userHears (receiverId senderId : Nat) (msg : String)
  | dispatch (senderId : Nat) (action : String) (args : Val)
deriving Repr, DecidableEq

/-- The state a handler invocation on one receiver can observe and mutate:
the in-memory receiver instance `self`, the durable rows `db`, and the
ordered trace of game-world calls. -/
structure WState where
  self : GObj
  db : List (Nat × GObj)
  effects : List Effect
deriving Repr, DecidableEq

/-- peewee `Model.save()`: persist the in-memory instance into its row. -/
def WState.save (st : WState) : WState :=
  { st with db := aset st.db st.self.id st.self }

def WState.emit (st : WState) (e : Effect) : WState :=
  { st with effects := st.effects ++ [e] }

/-- peewee `get_by_id`: fetch the persisted row for an id. -/
def get_by_id (st : WState) (i : Nat) : Option GObj :=
  alookup st.db i

/-- `ScriptedObjectMixin.set_data`: `self.data[key] = value; self.save()` —
mutates the in-memory map and persists immediately in the same call. -/
def WState.set_data (st : WState) (k : String) (v : Val) : WState :=
  WState.save { st with self := { st.self with data := aset st.self.data k v } }

/-- `ScriptedObjectMixin.get_data`:
`self.get_by_id(self.id).data.get(key, default)` — re-fetches the persisted
row before looking the key up; `none` models the DoesNotExist raise when the
row is missing. -/
def WState.get_data (st : WState) (k : String) (default : Val) : Option Val :=
  (get_by_id st st.self.id).map (fun row => (alookup row.data k).getD default)

/-- `ScriptedObjectMixin.say`: `self.game_world.dispatch_action(self, 'say', message)`. -/
def WState.say (st : WState) (message : String) : WState :=
  st.emit (.dispatch st.self.id "say" (.vstr message))

/-- `ScriptedObjectMixin.tell_sender`:
`self.game_world.dispatch_action(sender_obj, action, args)`. -/
def WState.tell_sender (st : WState) (sender : GObj) (action : String) (args : Val) : WState :=
  st.emit (.dispatch sender.id action args)

/-- The loop body of `_ensure_data`:
`for k,v in mapping: if k not in self.data: self.data[k] = v`. -/
def ensureLoop : List (String × Val) → List (String × Val) → List (String × Val)
  | [], d => d
  | (k, v) :: rest, d =>
      ensureLoop rest (if (alookup d k).isSome then d else aset d k v)

/-- `ScriptedObjectMixin._ensure_data`: returns unchanged on an empty defaults
map; otherwise merges the defaults without overwriting existing keys, then
saves the instance. -/
def WState.ensure_data (st : WState) (mapping : List (String × Val)) : WState :=
  if mapping = [] then st
  else
    WState.save { st with self := { st.self with data := ensureLoop mapping st.self.data } }

theorem ensureLoop_preserves {m d : List (String × Val)} {k : String} {v : Val}
    (h : alookup d k = some v) : alookup (ensureLoop m d) k = some v := by
  induction m generalizing d with
  | nil => simpa [ensureLoop] using h
  | cons hd tl ih =>
    obtain ⟨k0, v0⟩ := hd
    by_cases hs : (alookup d k0).isSome
    · simpa [ensureLoop, hs] using ih h
    · have hk : ¬ k = k0 := by
        intro he
        subst he
        simp [h] at hs
      have h' : alookup (aset d k0 v0) k = some v := by
        rw [alookup_aset]
        simp [hk, h]
      simpa [ensureLoop, hs] using ih h'

theorem ensureLoop_mem_isSome {m d : List (String × Val)} {k : String} {v : Val}
    (h : (k, v) ∈ m) : (alookup (ensureLoop m d) k).isSome := by
  induction m generalizing d with
  | nil => simp at h
  | cons hd tl ih =>
    obtain ⟨k0, v0⟩ := hd
    rcases List.mem_cons.mp h with heq | htl
    · obtain ⟨hk, hv⟩ := Prod.mk.injEq .. ▸ heq
      subst hk
      by_cases hs : (alookup d k).isSome
      · obtain ⟨w, hw⟩ := Option.isSome_iff_exists.mp hs
        simp [ensureLoop, hs, ensureLoop_preserves hw]
      · have : alookup (aset d k v0) k = some v0 := by
          rw [alookup_aset]; simp
        simp [ensureLoop, hs, ensureLoop_preserves this]
    · exact ih htl

theorem ensureLoop_noop {m d : List (String × Val)}
    (h : ∀ k v, (k, v) ∈ m → (alookup d k).isSome) : ensureLoop m d = d := by
  induction m with
  | nil => rfl
  | cons hd tl ih =>
    obtain ⟨k0, v0⟩ := hd
    have h0 : (alookup d k0).isSome := h k0 v0 (List.mem_cons_self _ _)
    simp only [ensureLoop, h0, if_pos]
    exact ih (fun k' v' hm => h k' v' (List.mem_cons_of_mem _ hm))

theorem ensureLoop_idem (m d : List (String × Val)) :
    ensureLoop m (ensureLoop m d) = ensureLoop m d :=
  ensureLoop_noop (fun _k _v hm => ensureLoop_mem_isSome hm)

/-- Errors a handler invocation can raise: `ClientException` (client-visible),
peewee's DoesNotExist on a missing row, and a Python TypeError. -/
inductive CErr where
  | client (msg : String)
  | notFound
  | typeError
deriving Repr, DecidableEq

/-- The shape of a handler: `fn(receiver, sender, action_args)`, where the
receiver is `st.self`; it may mutate the state and returns the Python return
value (None embedded as `none`). -/
def Handler : Type :=
  GObj → Val → WState → Except CErr (WState × Option String)

/-- `ScriptEngine.noop`: does nothing and returns None. -/
def noop : Handler := fun _sender _args st => Except.ok (st, none)

/-- `ScriptEngine._debug_handler`:
`return '{} <- {} with {}'.format(receiver, sender, action_args)`.
The str() of a game object (defined in models.py, outside src/) is embedded
as its `name`. -/
def debugHandler : Handler := fun sender args st =>
  Except.ok (st, some (st.self.name ++ " <- " ++ sender.name ++ " with " ++ formatVal args))

/-- `ScriptEngine.CONTAIN_TYPES`. -/
def CONTAIN_TYPES : List String := ["acquired", "entered", "lost", "freed"]

/-- `contain_type not in self.CONTAIN_TYPES` (a non-string argument is never a
member). -/
def isContainType : Val → Bool
  | .vstr s => CONTAIN_TYPES.contains s
  | _ => false

/-- `ScriptEngine._contain_handler`: raises `ClientException` on a contain
type outside `CONTAIN_TYPES`; otherwise, when the receiver is bound to a user
account, calls `game_world.send_client_update` (and sends no text message). -/
def containHandler : Handler := fun _sender args st =>
  if ¬ isContainType args then
    Except.error (CErr.client ("Bad container relation: " ++ formatVal args))
  else
    Except.ok
      ((match st.self.user_account with
        | some acct => st.emit (.clientUpdate acct)
        | none => st), none)

/-- The message template of `_announce_handler`. -/
def announceMsg (senderName : String) (args : Val) : String :=
  "The very air around you seems to shake as " ++ senderName
    ++ "\x27s booming voice says " ++ formatVal args

/-- The message template of `_say_handler`. -/
def sayMsg (senderName : String) (args : Val) : String :=
  senderName ++ " says, \"" ++ formatVal args ++ "\""

/-- The message template of `_whisper_handler`. -/
def whisperMsg (senderName : String) (args : Val) : String :=
  senderName ++ " whispers so only you can hear: " ++ formatVal args

/-- `ScriptEngine._announce_handler`: if the receiver is bound to a user
account, `game_world.user_hears(receiver, sender, msg)` with the announce
template; otherwise nothing. -/
def announceHandler : Handler := fun sender args st =>
  Except.ok
    ((match st.self.user_account with
      | some _ => st.emit (.userHears st.self.id sender.id (announceMsg sender.name args))
      | none => st), none)

/-- `ScriptEngine._say_handler`. -/
def sayHandler : Handler := fun sender args st =>
  Except.ok
    ((match st.self.user_account with
      | some _ => st.emit (.userHears st.self.id sender.id (sayMsg sender.name args))
      | none => st), none)

/-- `ScriptEngine._whisper_handler`. -/
def whisperHandler : Handler := fun sender args st =>
  Except.ok
    ((match st.self.user_account with
      | some _ => st.emit (.userHears st.self.id sender.id (whisperMsg sender.name args))
      | none => st), none)

/-- A compiled engine: the mutable handler table, a dict from action name to
handler. -/
structure ScriptEngine where
  handlers : List (String × Handler)

/-- `ScriptEngine.__init__`: the default handler table of built-ins. -/
def ScriptEngine.new : ScriptEngine :=
  { handlers := [("debug", debugHandler),
                 ("contain", containHandler),
                 ("say", sayHandler),
                 ("announce", announceHandler),
                 ("whisper", whisperHandler)] }

/-- `ScriptEngine.add_handler`: `self.handlers[action] = fn`. -/
def ScriptEngine.add_handler (e : ScriptEngine) (action : String) (fn : Handler) : ScriptEngine :=
  { e with handlers := aset e.handlers action fn }

/-- `ScriptEngine.handler`: `self.handlers.get(action, self.noop)`
(the `game_world` argument only feeds `_ensure_game_world`, whose world
binding is embedded in the effect trace). -/
def ScriptEngine.handler (e : ScriptEngine) (action : String) : Handler :=
  (alookup e.handlers action).getD noop

/-- A script revision: immutable `{id, code}`. -/
structure Rev where
  id : Nat
  code : String
deriving Repr, DecidableEq

/-- The scripting-relevant state of one game object for the `engine` property:
the `_engine` attribute (`none` embeds `not hasattr(self, '_engine')`), the
`script_revision` pointer, the result of the `latest_script_rev` query
(defined in models.py, outside src/ — modelled from the spec as the
highest-id revision of the object's Script), and the revision pointer as last
persisted by `save()`. -/
structure SObj where
  engineSlot : Option ScriptEngine
  script_revision : Option Rev
  latest_script_rev : Rev
  persistedRev : Option Rev

/-- `GameObject.save()` as far as the hot-reload logic observes it: persist
the revision pointer. -/
def SObj.save (o : SObj) : SObj :=
  { o with persistedRev := o.script_revision }

/-- The `WitchException` message raised by `init_scripting`:
`';_; There is a problem with your witch script: {}'.format(e)`. -/
def witchMsg (cause : String) : String :=
  ";_; There is a problem with your witch script: " ++ cause

/-- `ScriptedObjectMixin.init_scripting`.  The compiler `_execute_script`
(hy evaluation of the WITCH code, whose macros live in witch_header.hy,
outside src/) is passed in as `compile`; `Except.error` is a raised
exception.  With no script revision the default built-in engine is
installed; otherwise the revision's code is compiled and any compiler
exception is re-raised as a `WitchException` carrying the cause. -/
def init_scripting (compile : String → Except String ScriptEngine) (o : SObj) :
    Except String SObj :=
  match o.script_revision with
  | none => Except.ok { o with engineSlot := some ScriptEngine.new }
  | some rev =>
    match compile rev.code with
    | Except.ok eng => Except.ok { o with engineSlot := some eng }
    | Except.error cause => Except.error (witchMsg cause)

/-- The `ScriptedObjectMixin.engine` property.  First access (no `_engine`
attribute) calls `init_scripting`, whose `WitchException` is not caught.
Otherwise the hot-reload check compares `script_revision` with
`latest_script_rev`; on a difference it moves the pointer to the latest
revision and recompiles, catching `WitchException` to restore the pointer
(leaving the old engine in place), and saving on success.  Reading
`current_rev.id` when `script_revision` is None raises AttributeError. -/
def SObj.engine (compile : String → Except String ScriptEngine) (o : SObj) :
    Except String (ScriptEngine × SObj) :=
  match o.engineSlot with
  | none =>
    match init_scripting compile o with
    | Except.ok o' => Except.ok (o'.engineSlot.getD ScriptEngine.new, o')
    | Except.error e => Except.error e
  | some eng =>
    match o.script_revision with
    | none => Except.error "AttributeError"
    | some current_rev =>
      if o.latest_script_rev.id ≠ current_rev.id then
        let o1 := { o with script_revision := some o.latest_script_rev }
        match init_scripting compile o1 with
        | Except.ok o2 => Except.ok ((o2.save).engineSlot.getD eng, o2.save)
        | Except.error _ => Except.ok (eng, { o1 with script_revision := some current_rev })
      else Except.ok (eng, o)

/-- The `item` entry of `SCRIPT_TEMPLATES` (braces are literal: `{{`/`}}` is
the escaped brace for the WITCH `has` map, `{name}` etc. are the
`.format` slots). -/
def itemTemplate : String :=
  "\n    (witch \"\x7bname\x7d\"\n      (has \x7b\x7b\"name\" \"\x7bname\x7d\"\n            \"description\" \"\x7bdescription\x7d\"\x7d\x7d))\n    "

/-- The `player` entry of `SCRIPT_TEMPLATES` (same text as `item`). -/
def playerTemplate : String :=
  "\n    (witch \"\x7bname\x7d\"\n      (has \x7b\x7b\"name\" \"\x7bname\x7d\"\n            \"description\" \"\x7bdescription\x7d\"\x7d\x7d))\n    "

/-- The `room` entry of `SCRIPT_TEMPLATES` (same text as `item`). -/
def roomTemplate : String :=
  "\n    (witch \"\x7bname\x7d\"\n      (has \x7b\x7b\"name\" \"\x7bname\x7d\"\n            \"description\" \"\x7bdescription\x7d\"\x7d\x7d))\n    "

/-- The `exit` entry of `SCRIPT_TEMPLATES`. -/
def exitTemplate : String :=
  "\n    (witch \"\x7bname\x7d\"\n      (has \x7b\x7b\"name\" \"\x7bname\x7d\"\n            \"description\" \"\x7bdescription\x7d\"\n            \"target\" \"\x7btarget_room_name\x7d\"\x7d\x7d)\n      (hears \"touch\"\n        (tell-sender \"move\" (get-data \"target\"))))\n    "

/-- The `portkey` entry of `SCRIPT_TEMPLATES` (same text as `exit`). -/
def portkeyTemplate : String :=
  "\n    (witch \"\x7bname\x7d\"\n      (has \x7b\x7b\"name\" \"\x7bname\x7d\"\n            \"description\" \"\x7bdescription\x7d\"\n            \"target\" \"\x7btarget_room_name\x7d\"\x7d\x7d)\n      (hears \"touch\"\n        (tell-sender \"move\" (get-data \"target\"))))\n    "

/-- `SCRIPT_TEMPLATES`, in source order. -/
def SCRIPT_TEMPLATES : List (String × String) :=
  [("item", itemTemplate),
   ("player", playerTemplate),
   ("room", roomTemplate),
   ("exit", exitTemplate),
   ("portkey", portkeyTemplate)]

/-- The touch-wiring clause shared by the `exit` and `portkey` templates. -/
def touchWiring : String :=
  "(hears \"touch\"\n        (tell-sender \"move\" (get-data \"target\")))"

/-- Modelled from the spec: the handler the WITCH compiler (hy plus the
`hears`/`tell-sender`/`get-data` macros of witch_header.hy, outside src/)
produces for the `(hears "touch" (tell-sender "move" (get-data "target")))`
clause of the exit/portkey templates, expressed with the scripting.py
primitives `tell_sender` and `get_data`. -/
def exitTouchHandler : Handler := fun sender _args st =>
  match st.get_data "target" Val.vnone with
  | some v => Except.ok (st.tell_sender sender "move" v, none)
  | none => Except.error CErr.notFound

/-- Python `+ 1 x`: defined on ints, a TypeError otherwise. -/
def pyInc : Val → Except CErr Val
  | .vint n => Except.ok (.vint (1 + n))
  | _ => Except.error CErr.typeError

/-- Python `(= 0 (% x 5))`: defined on ints, a TypeError otherwise. -/
def pyMod5IsZero : Val → Except CErr Bool
  | .vint n => Except.ok (n % 5 == 0)
  | _ => Except.error CErr.typeError

/-- Modelled from the spec: the handler the WITCH compiler (witch_header.hy,
outside src/) produces for the `pet` clause of the horse script in
async_test.py:
`(hears "pet" (set-data "num-pets" (+ 1 (get-data "num-pets")))
  (if (= 0 (% (get-data "num-pets") 5)) (says "neigh neigh neigh i am horse")))`,
expressed with the scripting.py primitives `set_data`, `get_data` and `say`. -/
def petHandler : Handler := fun _sender _args st => do
  let v0 ← match st.get_data "num-pets" Val.vnone with
           | some x => Except.ok x
           | none => Except.error CErr.notFound
  let v1 ← pyInc v0
  let st1 := st.set_data "num-pets" v1
  let v2 ← match st1.get_data "num-pets" Val.vnone with
           | some x => Except.ok x
           | none => Except.error CErr.notFound
  let mult ← pyMod5IsZero v2
  if mult then Except.ok (st1.say "neigh neigh neigh i am horse", none)
  else Except.ok (st1, none)

/-- The `snoozy` game object of async_test.py's `test_witch_script`, as
created by `GameObject.create` (empty data). -/
def snoozyObj : GObj :=
  { id := 1, name := "snoozy", user_account := none, data := [] }

/-- The petter (the `vilmibm` player object sending the `pet` action). -/
def vilObj : GObj :=
  { id := 2, name := "vilmibm", user_account := some "vilmibm", data := [] }

/-- The default data declared by the horse script's `(has ...)` form. -/
def horseDefaults : List (String × Val) :=
  [("num-pets", .vint 0), ("name", .vstr "snoozy"), ("description", .vstr "a horse")]

/-- The state after creating snoozy (row persisted) and compiling its script,
whose `(has ...)` form runs `ensure_obj_data` on the declared defaults. -/
def horseStart : WState :=
  WState.ensure_data { self := snoozyObj, db := [(1, snoozyObj)], effects := [] } horseDefaults

/-- Send the `pet` action `n` times in sequence. -/
def petTimes : Nat → WState → Except CErr WState
  | 0, st => Except.ok st
  | n + 1, st => do
    let st' ← petTimes n st
    let r ← petHandler vilObj (Val.vstr "") st'
    Except.ok r.1

/-- A spoken broadcast: a dispatched `say` action. -/
def isSpoken : Effect → Bool
  | .dispatch _ a _ => a == "say"
  | _ => false

/-- Number of spoken broadcasts emitted so far after `n` pets. -/
def spokenAfter (n : Nat) : Option Nat :=
  match petTimes n horseStart with
  | Except.ok st => some (st.effects.filter isSpoken).length
  | Except.error _ => none

/-- Sample objects for concrete instantiations: one bound to a user account,
one not. -/
def boundObj : GObj :=
  { id := 7, name := "kit", user_account := some "kit", data := [] }

def unboundObj : GObj :=
  { id := 8, name := "rock", user_account := none, data := [] }

def sampleStateB : WState :=
  { self := boundObj, db := [(7, boundObj)], effects := [] }

def sampleStateU : WState :=
  { self := unboundObj, db := [(8, unboundObj)], effects := [] }

/-- A concrete exit object with a stored target, and its state. -/
def exitObjW : GObj :=
  { id := 9, name := "east door", user_account := none,
    data := [("target", .vstr "vilmibm/foyer")] }

def exitStateW : WState :=
  { self := exitObjW, db := [(9, exitObjW)], effects := [] }

theorem save_save (st : WState) : WState.save (WState.save st) = WState.save st := by
  simp [WState.save, aset_aset_same]

/-- Claim C3: `_ensure_data` is a no-op on an empty defaults map, never
overwrites a key already present in the entity's data, and applying it twice
with identical defaults leaves the whole state identical to a single
application. -/
theorem ensure_data_spec (st : WState) (m : List (String × Val)) :
    WState.ensure_data st [] = st
  ∧ (∀ k v, alookup st.self.data k = some v →
      alookup (WState.ensure_data st m).self.data k = some v)
  ∧ WState.ensure_data (WState.ensure_data st m) m = WState.ensure_data st m := by
  refine ⟨by simp [WState.ensure_data], fun k v h => ?_, ?_⟩
  · by_cases hm : m = []
    · simpa [WState.ensure_data, hm] using h
    · simpa [WState.ensure_data, hm, WState.save] using ensureLoop_preserves h
  · by_cases hm : m = []
    · simp [WState.ensure_data, hm]
    · simp [WState.ensure_data, hm, WState.save, aset_aset_same, ensureLoop_idem]

/-- Claim C3 witness: concrete instantiation of `ensure_data_spec` — a
default for an already-present key does not overwrite the stored value. -/
theorem ensure_data_spec_witness :
    alookup (WState.ensure_data exitStateW [("target", Val.vstr "elsewhere")]).self.data "target"
      = some (Val.vstr "vilmibm/foyer") :=
  (ensure_data_spec exitStateW [("target", Val.vstr "elsewhere")]).2.1 "target"
    (Val.vstr "vilmibm/foyer") rfl

/-- Claim C4: from a fresh state with default `num-pets = 0`, sending `pet`
five times in sequence yields exactly one spoken broadcast, occurring on the
fifth call (after four pets, none). -/
theorem pet_scenario : spokenAfter 4 = some 0 ∧ spokenAfter 5 = some 1 :=
  ⟨by decide, by decide⟩

/-- Claim C5: the built-in contain handler raises a client-visible error
exactly on a contain kind outside `{acquired, entered, lost, freed}`; on a
valid kind there is no error, and when the receiver is bound to a user
account a state-refresh push (`send_client_update`) is triggered with no
text message sent. -/
theorem contain_spec (sender : GObj) (args : Val) (st : WState) :
    (isContainType args = false →
      containHandler sender args st =
        Except.error (CErr.client ("Bad container relation: " ++ formatVal args)))
  ∧ (isContainType args = true →
      (∀ acct, st.self.user_account = some acct →
        containHandler sender args st =
          Except.ok (st.emit (.clientUpdate acct), none))
      ∧ (st.self.user_account = none →
        containHandler sender args st = Except.ok (st, none))) := by
  refine ⟨fun hf => ?_, fun ht => ⟨fun acct ha => ?_, fun hn => ?_⟩⟩
  · simp [containHandler, hf]
  · simp [containHandler, ht, ha]
  · simp [containHandler, ht, hn]

/-- Claim C5 witness: concrete instantiations of `contain_spec`. -/
theorem contain_spec_witness :
    containHandler unboundObj (Val.vstr "zorp") sampleStateB =
      Except.error (CErr.client ("Bad container relation: " ++ formatVal (Val.vstr "zorp")))
  ∧ containHandler unboundObj (Val.vstr "entered") sampleStateB =
      Except.ok (sampleStateB.emit (.clientUpdate "kit"), none)
  ∧ containHandler unboundObj (Val.vstr "entered") sampleStateU =
      Except.ok (sampleStateU, none) :=
  ⟨(contain_spec unboundObj (Val.vstr "zorp") sampleStateB).1 (by decide),
   ((contain_spec unboundObj (Val.vstr "entered") sampleStateB).2 (by decide)).1 "kit" rfl,
   ((contain_spec unboundObj (Val.vstr "entered") sampleStateU).2 (by decide)).2 rfl⟩

/-- Claim C6: dispatching an action absent from an engine's handler table
resolves to `noop`: the state (data, rows and effect trace) is unchanged,
nothing is emitted, nothing is raised, and None is returned. -/
theorem unknown_action_noop (e : ScriptEngine) (a : String)
    (h : alookup e.handlers a = none) :
    e.handler a = noop
  ∧ ∀ (sender : GObj) (args : Val) (st : WState),
      e.handler a sender args st = Except.ok (st, none) := by
  constructor
  · simp [ScriptEngine.handler, h]
  · intro sender args st
    simp [ScriptEngine.handler, h, noop]

/-- Claim C6 witness: the default engine has no `flarp` handler, so `flarp`
dispatches as `noop`. -/
theorem unknown_action_noop_witness : ScriptEngine.new.handler "flarp" = noop :=
  (unknown_action_noop ScriptEngine.new "flarp" rfl).1

/-- Claim C7: each of the built-in say/announce/whisper handlers composes its
fixed per-verb template from the sender's name and the action args and
delivers it (via `user_hears`) exactly when the receiver is bound to a user
account; otherwise nothing is delivered. -/
theorem speech_handlers_spec (sender : GObj) (args : Val) (st : WState) :
    (∀ acct, st.self.user_account = some acct →
        sayHandler sender args st =
          Except.ok (st.emit (.userHears st.self.id sender.id (sayMsg sender.name args)), none)
      ∧ announceHandler sender args st =
          Except.ok (st.emit (.userHears st.self.id sender.id (announceMsg sender.name args)), none)
      ∧ whisperHandler sender args st =
          Except.ok (st.emit (.userHears st.self.id sender.id (whisperMsg sender.name args)), none))
  ∧ (st.self.user_account = none →
        sayHandler sender args st = Except.ok (st, none)
      ∧ announceHandler sender args st = Except.ok (st, none)
      ∧ whisperHandler sender args st = Except.ok (st, none)) := by
  refine ⟨fun acct ha => ?_, fun hn => ?_⟩
  · refine ⟨?_, ?_, ?_⟩ <;> simp [sayHandler, announceHandler, whisperHandler, ha]
  · refine ⟨?_, ?_, ?_⟩ <;> simp [sayHandler, announceHandler, whisperHandler, hn]

/-- Claim C7 witness: concrete instantiation of `speech_handlers_spec`. -/
theorem speech_handlers_spec_witness :
    sayHandler unboundObj (Val.vstr "hi") sampleStateB =
      Except.ok
        (sampleStateB.emit
          (.userHears sampleStateB.self.id unboundObj.id (sayMsg unboundObj.name (Val.vstr "hi"))),
         none) :=
  (((speech_handlers_spec unboundObj (Val.vstr "hi") sampleStateB).1) "kit" rfl).1

/-- The text of the exit/portkey template up to the touch-wiring clause. -/
def exitHead : String :=
  "\n    (witch \"\x7bname\x7d\"\n      (has \x7b\x7b\"name\" \"\x7bname\x7d\"\n            \"description\" \"\x7bdescription\x7d\"\n            \"target\" \"\x7btarget_room_name\x7d\"\x7d\x7d)\n      "

/-- Claim C8: the authoring templates are keyed exactly by
`item, player, room, exit, portkey`; the `exit` and `portkey` templates
contain the `(hears "touch" (tell-sender "move" (get-data "target")))`
wiring; and the compiled touch handler sends a `move` action back to the
sender carrying the value stored under the receiver's `target` data key. -/
theorem templates_spec :
    SCRIPT_TEMPLATES.map Prod.fst = ["item", "player", "room", "exit", "portkey"]
  ∧ alookup SCRIPT_TEMPLATES "exit" = some (exitHead ++ touchWiring ++ ")\n    ")
  ∧ alookup SCRIPT_TEMPLATES "portkey" = some (exitHead ++ touchWiring ++ ")\n    ")
  ∧ ∀ (sender : GObj) (args : Val) (st : WState) (row : GObj) (v : Val),
      get_by_id st st.self.id = some row →
      alookup row.data "target" = some v →
      exitTouchHandler sender args st =
        Except.ok (st.tell_sender sender "move" v, none) := by
  refine ⟨by decide, by decide, by decide, fun sender args st row v h1 h2 => ?_⟩
  simp [exitTouchHandler, WState.get_data, h1, h2]

/-- Claim C8 witness: concrete instantiation of the touch-handler part of
`templates_spec`. -/
theorem templates_spec_witness :
    exitTouchHandler unboundObj (Val.vstr "") exitStateW =
      Except.ok (exitStateW.tell_sender unboundObj "move" (Val.vstr "vilmibm/foyer"), none) :=
  templates_spec.2.2.2 unboundObj (Val.vstr "") exitStateW exitObjW (Val.vstr "vilmibm/foyer")
    rfl rfl

/-- Claim C9: `add_handler` writes through the handler dict, so registering a
handler under any name — including a built-in action name — makes every
subsequent lookup of that action return the registered handler, and dispatch
invokes it instead of the previous entry. -/
theorem add_handler_overrides (e : ScriptEngine) (a : String) (fn : Handler) :
    (e.add_handler a fn).handler a = fn
  ∧ ∀ (sender : GObj) (args : Val) (st : WState),
      (e.add_handler a fn).handler a sender args st = fn sender args st := by
  have h : alookup (aset e.handlers a fn) a = some fn := by
    rw [alookup_aset]
    simp
  constructor
  · simp [ScriptEngine.handler, ScriptEngine.add_handler, h]
  · intro sender args st
    simp [ScriptEngine.handler, ScriptEngine.add_handler, h]

/-- Claim C10: `get_data` reads only the persisted row (an unsaved in-memory
change to the entity's data map is invisible to it, and with a persisted row
present it returns that row's value or the supplied default), while
`set_data` both mutates the in-memory map and persists it in the same call,
so a `get_data` right after a `set_data` sees the new value. -/
theorem data_read_write_spec (st : WState) (k : String) (v d : Val) :
    (∀ newData : List (String × Val),
        WState.get_data { st with self := { st.self with data := newData } } k d
          = st.get_data k d)
  ∧ (∀ row : GObj, alookup st.db st.self.id = some row →
        st.get_data k d = some ((alookup row.data k).getD d))
  ∧ alookup (st.set_data k v).self.data k = some v
  ∧ alookup (st.set_data k v).db st.self.id = some (st.set_data k v).self
  ∧ (st.set_data k v).get_data k d = some v := by
  refine ⟨fun newData => ?_, fun row h => ?_, ?_, ?_, ?_⟩
  · simp [WState.get_data, get_by_id]
  · simp [WState.get_data, get_by_id, h]
  · simp [WState.set_data, WState.save, alookup_aset]
  · simp [WState.set_data, WState.save, alookup_aset]
  · simp [WState.set_data, WState.save, WState.get_data, get_by_id, alookup_aset]

/-- Claim C10 witness: concrete instantiation of `data_read_write_spec`. -/
theorem data_read_write_witness :
    sampleStateB.get_data "hp" (Val.vint 3) =
      some ((alookup boundObj.data "hp").getD (Val.vint 3)) :=
  (data_read_write_spec sampleStateB "hp" Val.vnone (Val.vint 3)).2.1 boundObj rfl

/-- On a hot reload whose recompilation fails, the `engine` property catches
the `WitchException`, restores the revision pointer and returns the old
engine with the state unchanged. -/
theorem engine_reload_fail (compile : String → Except String ScriptEngine)
    (o : SObj) (eng : ScriptEngine) (cur : Rev) (cause : String)
    (h1 : o.engineSlot = some eng) (h2 : o.script_revision = some cur)
    (h3 : o.latest_script_rev.id ≠ cur.id)
    (hc : compile o.latest_script_rev.code = Except.error cause) :
    SObj.engine compile o = Except.ok (eng, o) := by
  simp only [SObj.engine, h1, h2, init_scripting, hc]
  rw [if_pos h3]
  rw [← h2, ← h1]

/-- Claim C1: for an entity with an already-built engine whose revision
pointer differs from the latest Script revision, accessing the engine is
atomic: on successful recompilation the pointer, the engine slot and the
persisted pointer all advance to the latest revision together; on compile
failure nothing changes, the previously compiled engine is the one returned,
and no exception propagates to the triggering call. -/
theorem hot_reload_atomic (compile : String → Except String ScriptEngine)
    (o : SObj) (eng : ScriptEngine) (cur : Rev)
    (h1 : o.engineSlot = some eng) (h2 : o.script_revision = some cur)
    (h3 : o.latest_script_rev.id ≠ cur.id) :
    (∀ eng', compile o.latest_script_rev.code = Except.ok eng' →
        SObj.engine compile o =
          Except.ok (eng', { o with engineSlot := some eng',
                                    script_revision := some o.latest_script_rev,
                                    persistedRev := some o.latest_script_rev }))
  ∧ (∀ cause, compile o.latest_script_rev.code = Except.error cause →
        SObj.engine compile o = Except.ok (eng, o)) := by
  constructor
  · intro eng' hc
    simp only [SObj.engine, h1, h2, init_scripting, hc, SObj.save]
    rw [if_pos h3]
    rfl
  · intro cause hc
    exact engine_reload_fail compile o eng cur cause h1 h2 h3 hc

/-- A compiler that succeeds and an entity one revision behind, for the
claim-C1 witness. -/
def compileOkW : String → Except String ScriptEngine := fun _ => Except.ok ScriptEngine.new

def oW : SObj :=
  { engineSlot := some ScriptEngine.new,
    script_revision := some { id := 1, code := "old" },
    latest_script_rev := { id := 2, code := "new" },
    persistedRev := some { id := 1, code := "old" } }

/-- Claim C1 witness: concrete instantiation of the success branch of
`hot_reload_atomic`. -/
theorem hot_reload_atomic_witness :
    SObj.engine compileOkW oW =
      Except.ok (ScriptEngine.new,
        { oW with engineSlot := some ScriptEngine.new,
                  script_revision := some oW.latest_script_rev,
                  persistedRev := some oW.latest_script_rev }) :=
  (hot_reload_atomic compileOkW oW ScriptEngine.new { id := 1, code := "old" }
      rfl rfl (by decide)).1 ScriptEngine.new rfl

/-- A compiler that always fails, and a fresh entity (no `_engine` attribute
yet) whose current revision does not compile. -/
def badCompile : String → Except String ScriptEngine := fun _ => Except.error "boom"

def freshBadObj : SObj :=
  { engineSlot := none,
    script_revision := some { id := 1, code := "(broken" },
    latest_script_rev := { id := 1, code := "(broken" },
    persistedRev := some { id := 1, code := "(broken" } }

/-- Claim C2 counterexample: on the FIRST engine access for an entity whose
current revision does not compile, the `WitchException` raised by
`init_scripting` is not caught by the `engine` property — it propagates to
the call that triggered it, which therefore receives a raised exception
rather than a compiled unit, contradicting the claim that compilation never
throws past the caller uncaught even on first access. -/
theorem first_access_compile_failure_throws :
    SObj.engine badCompile freshBadObj = Except.error (witchMsg "boom") := rfl

/-- Claim C2 (amended): compilation failure produces a `WitchException`
diagnostic carrying the offending cause; during hot reload the diagnostic is
caught and the triggering call receives the previously compiled engine, but
on the first engine access for an entity whose current revision does not
compile, the diagnostic propagates as a raised exception to the caller. -/
theorem compile_failure_diagnostic (compile : String → Except String ScriptEngine)
    (o : SObj) (rev : Rev) (cause : String)
    (hrev : o.script_revision = some rev)
    (hc : compile rev.code = Except.error cause) :
    init_scripting compile o = Except.error (witchMsg cause)
  ∧ (o.engineSlot = none → SObj.engine compile o = Except.error (witchMsg cause))
  ∧ (∀ eng cur cause2, o.engineSlot = some eng → o.script_revision = some cur →
      o.latest_script_rev.id ≠ cur.id →
      compile o.latest_script_rev.code = Except.error cause2 →
      SObj.engine compile o = Except.ok (eng, o)) := by
  refine ⟨?_, fun h0 => ?_, fun eng cur cause2 h1 h2 h3 hc2 => ?_⟩
  · simp [init_scripting, hrev, hc]
  · simp [SObj.engine, h0, init_scripting, hrev, hc]
  · exact engine_reload_fail compile o eng cur cause2 h1 h2 h3 hc2

/-- Claim C2 witness: concrete instantiation of `compile_failure_diagnostic`. -/
theorem compile_failure_diagnostic_witness :
    init_scripting badCompile freshBadObj = Except.error (witchMsg "boom") :=
  (compile_failure_diagnostic badCompile freshBadObj { id := 1, code := "(broken" } "boom"
      rfl rfl).1

end Tildemush
